import Mathlib

/-!
Verification of the feature-detection core of openwebrx (`owrx/feature.py`):
the `FeatureCache` time-bounded result cache, the `FeatureDetector` catalog
and dispatch (`is_available`, `has_requirements`, `has_requirement`), and the
`command_is_runnable` process probe with its timeout/kill protocol.

Time is modelled as a natural number of seconds (`datetime.now()` becomes an
explicit `now : Nat` argument); `timedelta(hours=2)` becomes `7200` seconds.
The Python dict used by the cache is modelled as an association list read
through `alookup` (first match wins; `set` conses a fresh entry in front,
which is observationally the dict overwrite).  Detection-strategy methods
(`has_<requirement>`) are modelled as an environment
`Strategies : String → Option (Nat → Bool)`: `none` when no `has_<name>`
method exists, and otherwise a pure function from the number of times that
strategy was already invoked to the boolean it returns on that invocation
(this makes re-invocation observable, which the cache claims need).
`logger.error` / `logger.warning` calls are modelled as messages appended to
explicit logs.
-/

/-- One entry of `FeatureCache.cache`: the stored boolean and the instant
(`valid_to`) until which it is valid, from
`self.cache[feature] = {"value": value, "valid_to": valid_to}`. -/
structure CacheEntry where
  value : Bool
  valid_to : Nat
deriving Repr, DecidableEq

abbrev Cache := List (String × CacheEntry)

/-- First-match association-list lookup, modelling Python dict access. -/
def alookup {β : Type} : List (String × β) → String → Option β
  | [], _ => none
  | (k, v) :: rest, key => if k = key then some v else alookup rest key

namespace FeatureCache

/-- `self.cachetime = timedelta(hours=2)`, in seconds. -/
def cachetime : Nat := 7200

/-- `FeatureCache.has`: `False` when the feature is not in the dict, `False`
when the entry's `valid_to` is strictly before `now`, `True` otherwise. -/
def has (cache : Cache) (now : Nat) (feature : String) : Bool :=
  match alookup cache feature with
  | none => false
  | some entry => if entry.valid_to < now then false else true

/-- `FeatureCache.get`: `self.cache[feature]["value"]`.  The Python dict
access raises `KeyError` on a missing key; that partiality is modelled with
`Option`. -/
def get (cache : Cache) (feature : String) : Option Bool :=
  (alookup cache feature).map CacheEntry.value

/-- `FeatureCache.set`: store `value` with `valid_to = now + cachetime`,
overwriting any prior entry for `feature` (cons in front; `alookup` takes
the first match). -/
def set (cache : Cache) (now : Nat) (feature : String) (value : Bool) : Cache :=
  (feature, ⟨value, now + cachetime⟩) :: cache

end FeatureCache

/-- The environment of detection strategies: for each requirement name,
either `none` (no `has_<requirement>` method on the class) or the pure
behaviour of that method as a function of its past invocation count. -/
abbrev Strategies := String → Option (Nat → Bool)

/-- The mutable state threaded through the detector: the shared
`FeatureCache` contents, the number of times each strategy has been invoked
(instrumentation making "the strategy was (not) re-invoked" provable), and
the messages passed to `logger.error`. -/
structure DetectorState where
  cache : Cache
  invocations : List (String × Nat)
  errorLog : List String
deriving Repr, DecidableEq

/-- How many times the strategy for `req` has been invoked so far. -/
def getInvocations (st : DetectorState) (req : String) : Nat :=
  (alookup st.invocations req).getD 0

/-- `UnknownFeatureException`, carrying the formatted message. -/
inductive UnknownFeatureException where
  | unknown (msg : String)
deriving Repr, DecidableEq

namespace FeatureDetector

/-- The static `FeatureDetector.features` catalog, transcribed entry by
entry from the class attribute. -/
def features : List (String × List String) := [
  ("core", ["csdr"]),
  ("rtl_sdr", ["rtl_connector"]),
  ("rtl_sdr_soapy", ["soapy_connector", "soapy_rtl_sdr"]),
  ("rtl_tcp", ["rtl_tcp_connector"]),
  ("sdrplay", ["soapy_connector", "soapy_sdrplay"]),
  ("hackrf", ["soapy_connector", "soapy_hackrf"]),
  ("perseussdr", ["perseustest", "nmux"]),
  ("airspy", ["soapy_connector", "soapy_airspy"]),
  ("airspyhf", ["soapy_connector", "soapy_airspyhf"]),
  ("afedri", ["soapy_connector", "soapy_afedri"]),
  ("lime_sdr", ["soapy_connector", "soapy_lime_sdr"]),
  ("fifi_sdr", ["alsa", "rockprog", "nmux"]),
  ("pluto_sdr", ["soapy_connector", "soapy_pluto_sdr"]),
  ("soapy_remote", ["soapy_connector", "soapy_remote"]),
  ("uhd", ["soapy_connector", "soapy_uhd"]),
  ("radioberry", ["soapy_connector", "soapy_radioberry"]),
  ("fcdpp", ["soapy_connector", "soapy_fcdpp"]),
  ("bladerf", ["soapy_connector", "soapy_bladerf"]),
  ("sddc", ["sddc_connector"]),
  ("sddc_soapy", ["soapy_connector", "soapy_sddc"]),
  ("hpsdr", ["hpsdr_connector"]),
  ("runds", ["runds_connector"]),
  ("digital_voice_digiham", ["digiham", "codecserver_ambe"]),
  ("digital_voice_freedv", ["freedv_rx"]),
  ("digital_voice_m17", ["m17_demod"]),
  ("wsjt-x", ["wsjtx"]),
  ("wsjt-x-2-3", ["wsjtx_2_3"]),
  ("wsjt-x-2-4", ["wsjtx_2_4"]),
  ("msk144", ["msk144decoder"]),
  ("packet", ["direwolf"]),
  ("pocsag", ["digiham"]),
  ("js8call", ["js8", "js8py"]),
  ("drm", ["dream"]),
  ("dump1090", ["dump1090"]),
  ("ism", ["rtl_433"]),
  ("dumphfdl", ["dumphfdl"]),
  ("dumpvdl2", ["dumpvdl2"]),
  ("redsea", ["redsea"]),
  ("dab", ["csdreti", "dablin"]),
  ("mqtt", ["paho_mqtt"])]

/-- `FeatureDetector.get_requirements`: the catalog entry, or
`UnknownFeatureException` when the feature name is not a key. -/
def get_requirements (feature : String) : Except UnknownFeatureException (List String) :=
  match alookup features feature with
  | some reqs => Except.ok reqs
  | none => Except.error (UnknownFeatureException.unknown
      (s!"Feature \"{feature}\" is not known."))

/-- The `logger.error` message from `has_requirement`. -/
def not_implemented_message (requirement : String) : String :=
  s!"detection of requirement {requirement} not implement. please fix in code!"

/-- `FeatureDetector.has_requirement`: consult the cache; on hit return the
cached value unchanged; on miss resolve the strategy
(`_get_requirement_method`), invoke it if present (recording the
invocation), otherwise log an error and use `False`; store the result in
the cache either way. -/
def has_requirement (strat : Strategies) (now : Nat) (st : DetectorState)
    (requirement : String) : Bool × DetectorState :=
  if FeatureCache.has st.cache now requirement then
    ((FeatureCache.get st.cache requirement).getD false, st)
  else
    match strat requirement with
    | some m =>
      let n := getInvocations st requirement
      let result := m n
      (result, ⟨FeatureCache.set st.cache now requirement result,
                (requirement, n + 1) :: st.invocations, st.errorLog⟩)
    | none =>
      (false, ⟨FeatureCache.set st.cache now requirement false,
               st.invocations,
               st.errorLog ++ [not_implemented_message requirement]⟩)

/-- The loop body of `FeatureDetector.has_requirements`:
`passed = passed and self.has_requirement(requirement)`.  Python's `and`
short-circuits: when `passed` is already `False`, `has_requirement` is not
called and the state is untouched. -/
def has_requirements_loop (strat : Strategies) (now : Nat) (passed : Bool)
    (st : DetectorState) : List String → Bool × DetectorState
  | [] => (passed, st)
  | r :: rs =>
    if passed then
      let p := has_requirement strat now st r
      has_requirements_loop strat now p.1 p.2 rs
    else
      has_requirements_loop strat now passed st rs

/-- `FeatureDetector.has_requirements`: the loop with `passed = True`. -/
def has_requirements (strat : Strategies) (now : Nat) (st : DetectorState)
    (requirements : List String) : Bool × DetectorState :=
  has_requirements_loop strat now true st requirements

/-- `FeatureDetector.is_available`:
`self.has_requirements(self.get_requirements(feature))`, with the
`UnknownFeatureException` from `get_requirements` propagating. -/
def is_available (strat : Strategies) (now : Nat) (st : DetectorState)
    (feature : String) : Except UnknownFeatureException (Bool × DetectorState) :=
  match get_requirements feature with
  | Except.error e => Except.error e
  | Except.ok reqs => Except.ok (has_requirements strat now st reqs)

end FeatureDetector

/-- Modelled from the spec's words, for comparison with the short-circuiting
`has_requirements` from the source: invoke `has_requirement` for EVERY
requirement in the list, in order, threading the state, and collect the
individual booleans. -/
def requirementResultsSpec (strat : Strategies) (now : Nat) (st : DetectorState) :
    List String → List Bool × DetectorState
  | [] => ([], st)
  | r :: rs =>
    let p := FeatureDetector.has_requirement strat now st r
    let rest := requirementResultsSpec strat now p.2 rs
    (p.1 :: rest.1, rest.2)

/-- Abstract behaviour of a process spawned by `command_is_runnable`, for a
process that eventually terminates: the number of 10-second `process.wait`
timeouts (`subprocess.TimeoutExpired`) that occur before it finally
terminates, and the exit code it then returns. -/
structure ProcBehavior where
  timeouts : Nat
  rc : Int
deriving Repr, DecidableEq

namespace FeatureDetector

/-- The `logger.warning` message from `command_is_runnable`'s wait loop. -/
def timeout_warning (command : String) : String :=
  s!"feature check command \"{command}\" did not return after 10 seconds!"

/-- The `while True` wait loop of `command_is_runnable`: each
`TimeoutExpired` logs a warning identifying the command and kills the
process, then the loop waits again; when `process.wait(10)` finally returns,
the loop breaks with the exit code.  Returns the exit code together with
the warnings logged. -/
def wait_kill_loop (command : String) : Nat → Int → Int × List String
  | 0, rc => (rc, [])
  | n + 1, rc =>
    let rest := wait_kill_loop command n rc
    (rest.1, timeout_warning command :: rest.2)

/-- `FeatureDetector.command_is_runnable`.  `launch = none` models
`subprocess.Popen` raising `FileNotFoundError` (caught: the probe returns
`False`); `launch = some p` models a successful launch with behaviour `p`.
After the wait loop yields `rc`: with no `expected_result` the probe
succeeds iff `rc != 32512`, otherwise iff `rc == expected_result`.
Returns the boolean together with the warnings logged. -/
def command_is_runnable (launch : Option ProcBehavior) (command : String)
    (expected_result : Option Int) : Bool × List String :=
  match launch with
  | none => (false, [])
  | some p =>
    let w := wait_kill_loop command p.timeouts p.rc
    match expected_result with
    | none => (decide (w.1 ≠ 32512), w.2)
    | some e => (decide (w.1 = e), w.2)

end FeatureDetector

/-- How a probe's `subprocess.Popen` call configures the child process:
whether `DISPLAY` is removed from the inherited environment, and whether
each standard stream is redirected away from the caller (to `DEVNULL` or a
`PIPE`) rather than inherited. -/
structure SpawnConfig where
  removesDisplay : Bool
  redirectsStdin : Bool
  redirectsStdout : Bool
  redirectsStderr : Bool
deriving Repr, DecidableEq

namespace FeatureDetector

/-- The `Popen` call in `command_is_runnable`: `env.pop("DISPLAY", None)`
on a copy of the environment, and `stdin`, `stdout`, `stderr` all
`subprocess.DEVNULL`. -/
def command_is_runnable_spawn : SpawnConfig :=
  ⟨true, true, true, true⟩

/-- The `Popen` call in `_check_connector` (the versioned-connector probe):
`subprocess.Popen([command, "--version"], stdout=subprocess.PIPE)` — no
`env` argument (environment inherited unmodified, `DISPLAY` kept), `stdin`
and `stderr` inherited, only `stdout` piped. -/
def check_connector_spawn : SpawnConfig :=
  ⟨false, false, true, false⟩

/-- The `Popen` call in `_has_soapy_driver` (the driver-enumeration probe):
`stdout=subprocess.PIPE, stderr=subprocess.DEVNULL` — environment inherited
unmodified (`DISPLAY` kept) and `stdin` inherited. -/
def has_soapy_driver_spawn : SpawnConfig :=
  ⟨false, false, true, true⟩

/-- The `Popen` call in `_has_wsjtx_version`:
`subprocess.Popen(["wsjtx_app_version", "--version"], stdout=subprocess.PIPE)`
— environment inherited unmodified, `stdin` and `stderr` inherited. -/
def has_wsjtx_version_spawn : SpawnConfig :=
  ⟨false, false, true, false⟩

/-- Every `subprocess.Popen` site in the feature detector. -/
def probe_spawns : List SpawnConfig :=
  [command_is_runnable_spawn, check_connector_spawn,
   has_soapy_driver_spawn, has_wsjtx_version_spawn]

end FeatureDetector

/-- `_check_connector`'s `try` block catches only `FileNotFoundError`; the
`subprocess.TimeoutExpired` raised by `process.wait(1)` when the spawned
connector does not exit within 1 second is NOT caught and propagates to the
caller (through `has_requirement`, `has_requirements` and `is_available`,
none of which handle it). -/
inductive SubprocessError where
  | timeoutExpired
deriving Repr, DecidableEq

/-- Abstract behaviour of the process spawned by `_check_connector`: the
first line read from its piped stdout, and whether it exits within the
1-second `process.wait(1)` window. -/
structure ConnectorRun where
  firstLine : String
  exitsWithin1s : Bool
deriving Repr, DecidableEq

namespace FeatureDetector

/-- The match
`re.compile("^{} version (.*)$".format(re.escape(command))).match(line)`
from `_check_connector`: succeeds iff the line starts with
`"<command> version "`, capturing the rest.  (The end-of-line anchor's
trailing-newline trimming is elided; the inputs used here carry no
newline.) -/
def connector_version_match (command line : String) : Option String :=
  if List.isPrefixOf (command ++ " version ").data line.data then
    some (String.mk (line.data.drop (command ++ " version ").data.length))
  else none

/-- `FeatureDetector._check_connector`.  `launch = none` models `Popen`
raising `FileNotFoundError`, which IS caught (`return False`).  Otherwise
the first stdout line is matched against the version pattern (`None` means
`return False`, before any wait).  On a match, `LooseVersion` construction
succeeds and then `process.wait(1)` runs: if the process does not terminate
within 1 second, `subprocess.TimeoutExpired` is raised and — not being a
`FileNotFoundError` — propagates.  Only after the wait is the parsed
version compared with the required one; the `LooseVersion` ordering itself
is abstracted as the oracle `version_ge` (no claim concerns the version
ordering, and the counterexample path below never reaches it). -/
def check_connector (command : String) (version_ge : String → Bool)
    (launch : Option ConnectorRun) : Except SubprocessError Bool :=
  match launch with
  | none => Except.ok false
  | some run =>
    match connector_version_match command run.firstLine with
    | none => Except.ok false
    | some verstr =>
      if run.exitsWithin1s then Except.ok (version_ge verstr)
      else Except.error SubprocessError.timeoutExpired

end FeatureDetector

/-- A strategy environment with no method for any requirement. -/
def stratNone : Strategies := fun _ => none

/-- A strategy environment whose methods all return `true`. -/
def stratAllTrue : Strategies := fun _ => some (fun _ => true)

/-- A strategy environment under which the first requirement of feature
`"rtl_sdr_soapy"` detects as `false` and the second as `true`. -/
def stratFirstFails : Strategies := fun r =>
  if r = "soapy_connector" then some (fun _ => false)
  else if r = "soapy_rtl_sdr" then some (fun _ => true)
  else none

/-- A strategy environment whose `"probe"` method alternates
`true, false, true, ...` over successive invocations. -/
def stratAlternating : Strategies := fun r =>
  if r = "probe" then some (fun n => decide (n % 2 = 0)) else none

/-! ## Helper lemmas -/

theorem alookup_set (c : Cache) (n : Nat) (f : String) (v : Bool) :
    alookup (FeatureCache.set c n f v) f = some ⟨v, n + FeatureCache.cachetime⟩ := by
  simp [FeatureCache.set, alookup]

theorem wait_kill_loop_rc (cmd : String) (n : Nat) (rc : Int) :
    (FeatureDetector.wait_kill_loop cmd n rc).1 = rc := by
  induction n with
  | zero => rfl
  | succ k ih => simpa [FeatureDetector.wait_kill_loop] using ih

theorem wait_kill_loop_warnings (cmd : String) (n : Nat) (rc : Int) :
    (FeatureDetector.wait_kill_loop cmd n rc).2 =
      List.replicate n (FeatureDetector.timeout_warning cmd) := by
  induction n with
  | zero => rfl
  | succ k ih => simp [FeatureDetector.wait_kill_loop, ih, List.replicate]

theorem has_requirement_hit (strat : Strategies) (now : Nat) (st : DetectorState)
    (req : String) (hh : FeatureCache.has st.cache now req = true) :
    FeatureDetector.has_requirement strat now st req =
      ((FeatureCache.get st.cache req).getD false, st) := by
  simp [FeatureDetector.has_requirement, hh]

theorem has_requirement_miss_some (strat : Strategies) (now : Nat)
    (st : DetectorState) (req : String) (m : Nat → Bool)
    (hm : strat req = some m)
    (hmiss : FeatureCache.has st.cache now req = false) :
    FeatureDetector.has_requirement strat now st req =
      (m (getInvocations st req),
       ⟨FeatureCache.set st.cache now req (m (getInvocations st req)),
        (req, getInvocations st req + 1) :: st.invocations, st.errorLog⟩) := by
  simp [FeatureDetector.has_requirement, hmiss, hm]

theorem has_requirements_loop_cons (strat : Strategies) (now : Nat) (passed : Bool)
    (st : DetectorState) (r : String) (rs : List String) :
    FeatureDetector.has_requirements_loop strat now passed st (r :: rs) =
      if passed then
        FeatureDetector.has_requirements_loop strat now
          (FeatureDetector.has_requirement strat now st r).1
          (FeatureDetector.has_requirement strat now st r).2 rs
      else
        FeatureDetector.has_requirements_loop strat now passed st rs := rfl

theorem has_requirements_loop_false (strat : Strategies) (now : Nat)
    (st : DetectorState) (rs : List String) :
    FeatureDetector.has_requirements_loop strat now false st rs = (false, st) := by
  induction rs with
  | nil => rfl
  | cons r rs ih => simpa [FeatureDetector.has_requirements_loop] using ih

theorem has_requirements_loop_true_all (strat : Strategies) (now : Nat)
    (rs : List String) (st : DetectorState) :
    (FeatureDetector.has_requirements_loop strat now true st rs).1 =
      (requirementResultsSpec strat now st rs).1.all id := by
  induction rs generalizing st with
  | nil => rfl
  | cons r rs ih =>
    simp only [FeatureDetector.has_requirements_loop, requirementResultsSpec,
      if_true, List.all_cons, id]
    cases hb : (FeatureDetector.has_requirement strat now st r).1 with
    | false => simp [has_requirements_loop_false]
    | true => simpa using ih (FeatureDetector.has_requirement strat now st r).2

/-! ## Claim theorems -/

/-- C7 (counterexample): at the boundary instant where the entry's expiry
equals the current time, `FeatureCache.has` returns `true`, not `false` as
the claim states — the code only rejects entries with `valid_to < now`. -/
theorem cache_has_boundary_counterexample :
    FeatureCache.has [("x", CacheEntry.mk true 5)] 5 "x" = true ∧
    alookup ([("x", CacheEntry.mk true 5)] : Cache) "x" = some (CacheEntry.mk true 5) ∧
    ¬ (5 < (CacheEntry.mk true 5).valid_to) := by
  refine ⟨rfl, rfl, by decide⟩

/-- C7 (amended): `FeatureCache.has` returns `true` iff an entry exists for
the name and its expiry instant is at or after (`≥`) the current time; in
particular at the boundary instant where the expiry equals the current time
it returns `true`. -/
theorem cache_has_iff_not_expired (c : Cache) (now : Nat) (f : String) :
    FeatureCache.has c now f = true ↔
      ∃ e, alookup c f = some e ∧ now ≤ e.valid_to := by
  unfold FeatureCache.has
  cases h : alookup c f with
  | none => simp
  | some e =>
    by_cases hlt : e.valid_to < now
    · simp [hlt]
      try omega
    · simp [hlt]
      try omega

/-- C10: immediately after `FeatureCache.set`, and for as long as the clock
has not advanced past the stored expiry (`now + 2 hours`), `has` answers
`true` and `get` returns exactly the stored value. -/
theorem cache_set_get_roundtrip (c : Cache) (t tq : Nat) (f : String) (v : Bool)
    (h : tq ≤ t + FeatureCache.cachetime) :
    FeatureCache.has (FeatureCache.set c t f v) tq f = true ∧
    FeatureCache.get (FeatureCache.set c t f v) f = some v := by
  constructor
  · unfold FeatureCache.has
    rw [alookup_set]
    simp
    omega
  · unfold FeatureCache.get
    rw [alookup_set]
    rfl

theorem cache_set_get_roundtrip_witness :
    (7200 : Nat) ≤ 0 + FeatureCache.cachetime ∧
    FeatureCache.has (FeatureCache.set [] 0 "x" true) 7200 "x" = true ∧
    FeatureCache.get (FeatureCache.set [] 0 "x" true) "x" = some true :=
  ⟨by decide, (cache_set_get_roundtrip [] 0 7200 "x" true (by decide)).1,
   (cache_set_get_roundtrip [] 0 7200 "x" true (by decide)).2⟩

/-- C6: with no expected exit code, `command_is_runnable` succeeds iff the
exit code is not the sentinel `32512`; with an expected code it succeeds iff
the exit code matches exactly; and a launch that fails with
`FileNotFoundError` yields `false` instead of propagating. -/
theorem command_is_runnable_result_interpretation (p : ProcBehavior) (cmd : String)
    (expected : Int) (e : Option Int) :
    ((FeatureDetector.command_is_runnable (some p) cmd none).1 = true ↔ p.rc ≠ 32512) ∧
    ((FeatureDetector.command_is_runnable (some p) cmd (some expected)).1 = true ↔
      p.rc = expected) ∧
    (FeatureDetector.command_is_runnable none cmd e).1 = false := by
  refine ⟨?_, ?_, rfl⟩ <;>
    simp [FeatureDetector.command_is_runnable, wait_kill_loop_rc]

/-- C9: for a process that terminates after finitely many ignored kill
signals (`p.timeouts` expired 10-second waits — the claim's precondition is
the existence of such a finite count, which the model's `ProcBehavior`
carries), the wait loop terminates: every timeout logs the warning naming
the command, a process ignoring kills through at least two timeouts yields
at least two warnings, and the probe still returns a boolean. -/
theorem command_is_runnable_timeout_protocol (p : ProcBehavior) (cmd : String)
    (e : Option Int) (h : 2 ≤ p.timeouts) :
    (FeatureDetector.command_is_runnable (some p) cmd e).2 =
      List.replicate p.timeouts (FeatureDetector.timeout_warning cmd) ∧
    2 ≤ (FeatureDetector.command_is_runnable (some p) cmd e).2.length ∧
    ((FeatureDetector.command_is_runnable (some p) cmd e).1 = true ∨
     (FeatureDetector.command_is_runnable (some p) cmd e).1 = false) := by
  have hw : (FeatureDetector.command_is_runnable (some p) cmd e).2 =
      List.replicate p.timeouts (FeatureDetector.timeout_warning cmd) := by
    cases e <;> simp [FeatureDetector.command_is_runnable, wait_kill_loop_warnings]
  refine ⟨hw, ?_, ?_⟩
  · rw [hw]
    simpa using h
  · cases (FeatureDetector.command_is_runnable (some p) cmd e).1 <;> simp

theorem command_is_runnable_timeout_protocol_witness :
    2 ≤ (ProcBehavior.mk 2 0).timeouts ∧
    (FeatureDetector.command_is_runnable (some (ProcBehavior.mk 2 0)) "sleep 25" none).2 =
      List.replicate 2 (FeatureDetector.timeout_warning "sleep 25") ∧
    2 ≤ (FeatureDetector.command_is_runnable (some (ProcBehavior.mk 2 0)) "sleep 25" none).2.length :=
  ⟨by decide,
   (command_is_runnable_timeout_protocol (ProcBehavior.mk 2 0) "sleep 25" none (by decide)).1,
   (command_is_runnable_timeout_protocol (ProcBehavior.mk 2 0) "sleep 25" none (by decide)).2.1⟩

/-- C8 (counterexample): the versioned-connector probe (`_check_connector`)
spawns its subprocess with the environment inherited unmodified — `DISPLAY`
is not removed — and with `stdin` and `stderr` inherited rather than
redirected, contradicting the claim that every spawned probe is sanitized. -/
theorem probe_spawn_sanitization_counterexample :
    FeatureDetector.check_connector_spawn ∈ FeatureDetector.probe_spawns ∧
    FeatureDetector.check_connector_spawn.removesDisplay = false ∧
    FeatureDetector.check_connector_spawn.redirectsStdin = false ∧
    FeatureDetector.check_connector_spawn.redirectsStderr = false := by
  refine ⟨?_, rfl, rfl, rfl⟩
  simp [FeatureDetector.probe_spawns]

/-- C8 (amended): every spawned probe redirects `stdout` away from the
caller, but only `command_is_runnable`'s spawn removes `DISPLAY` from the
environment or redirects `stdin`; that spawn also redirects `stderr`.  The
versioned-connector, driver-enumeration and WSJT-X version probes inherit
the caller's environment (`DISPLAY` included) and `stdin`. -/
theorem probe_spawn_sanitization (s : SpawnConfig)
    (hs : s ∈ FeatureDetector.probe_spawns) :
    s.redirectsStdout = true ∧
    (s.removesDisplay = true ↔ s = FeatureDetector.command_is_runnable_spawn) ∧
    (s.redirectsStdin = true ↔ s = FeatureDetector.command_is_runnable_spawn) ∧
    FeatureDetector.command_is_runnable_spawn.removesDisplay = true ∧
    FeatureDetector.command_is_runnable_spawn.redirectsStdin = true ∧
    FeatureDetector.command_is_runnable_spawn.redirectsStderr = true := by
  fin_cases hs <;> decide

theorem probe_spawn_sanitization_witness :
    FeatureDetector.check_connector_spawn ∈ FeatureDetector.probe_spawns ∧
    (FeatureDetector.check_connector_spawn.removesDisplay = true ↔
      FeatureDetector.check_connector_spawn = FeatureDetector.command_is_runnable_spawn) :=
  ⟨by decide,
   (probe_spawn_sanitization FeatureDetector.check_connector_spawn (by decide)).2.1⟩

/-- C3: on a cache miss for a requirement whose strategy environment has no
`has_<name>` method, `has_requirement` returns `false` (total, so it cannot
raise), appends the "not implement" error to the log, and stores `false` in
the cache. -/
theorem has_requirement_no_strategy (strat : Strategies) (now : Nat)
    (st : DetectorState) (req : String)
    (hmiss : FeatureCache.has st.cache now req = false)
    (hnone : strat req = none) :
    FeatureDetector.has_requirement strat now st req =
      (false, ⟨FeatureCache.set st.cache now req false, st.invocations,
               st.errorLog ++ [FeatureDetector.not_implemented_message req]⟩) := by
  simp [FeatureDetector.has_requirement, hmiss, hnone]

theorem has_requirement_no_strategy_witness :
    FeatureDetector.has_requirement stratNone 0 ⟨[], [], []⟩ "unregistered" =
      (false, ⟨FeatureCache.set [] 0 "unregistered" false, [],
               [FeatureDetector.not_implemented_message "unregistered"]⟩) :=
  has_requirement_no_strategy stratNone 0 ⟨[], [], []⟩ "unregistered" rfl rfl

/-- C2: `is_available` produces the unknown-feature error exactly for the
names that are not keys of the catalog, and for every catalog feature it
yields a boolean (the model is total, so no other failure escapes). -/
theorem is_available_unknown_feature_iff (strat : Strategies) (now : Nat)
    (st : DetectorState) (feature : String) :
    ((∃ err, FeatureDetector.is_available strat now st feature = Except.error err) ↔
      alookup FeatureDetector.features feature = none) ∧
    (∀ reqs, alookup FeatureDetector.features feature = some reqs →
      FeatureDetector.is_available strat now st feature =
        Except.ok (FeatureDetector.has_requirements strat now st reqs)) := by
  cases h : alookup FeatureDetector.features feature with
  | none => simp [FeatureDetector.is_available, FeatureDetector.get_requirements, h]
  | some reqs => simp [FeatureDetector.is_available, FeatureDetector.get_requirements, h]

theorem is_available_unknown_feature_iff_witness :
    FeatureDetector.is_available stratNone 0 ⟨[], [], []⟩ "core" =
      Except.ok (FeatureDetector.has_requirements stratNone 0 ⟨[], [], []⟩ ["csdr"]) ∧
    alookup FeatureDetector.features "no_such_feature" = none :=
  ⟨(is_available_unknown_feature_iff stratNone 0 ⟨[], [], []⟩ "core").2 ["csdr"] rfl,
   rfl⟩

/-- C1: for every catalog feature, `is_available` returns the AND over the
per-requirement results: it is `true` exactly when invoking
`has_requirement` for each listed requirement (in order, threading the
state) yields `true` for every requirement — so flipping any one
requirement's result to `false` makes the feature unavailable. -/
theorem is_available_and_composition (strat : Strategies) (now : Nat)
    (st : DetectorState) (feature : String) (reqs : List String)
    (h : FeatureDetector.get_requirements feature = Except.ok reqs) :
    FeatureDetector.is_available strat now st feature =
      Except.ok (FeatureDetector.has_requirements strat now st reqs) ∧
    ((FeatureDetector.has_requirements strat now st reqs).1 = true ↔
      ∀ b ∈ (requirementResultsSpec strat now st reqs).1, b = true) := by
  constructor
  · simp [FeatureDetector.is_available, h]
  · unfold FeatureDetector.has_requirements
    rw [has_requirements_loop_true_all]
    simp [List.all_eq_true]

theorem is_available_and_composition_witness :
    FeatureDetector.is_available stratAllTrue 0 ⟨[], [], []⟩ "rtl_sdr_soapy" =
      Except.ok (FeatureDetector.has_requirements stratAllTrue 0 ⟨[], [], []⟩
        ["soapy_connector", "soapy_rtl_sdr"]) ∧
    ((FeatureDetector.has_requirements stratAllTrue 0 ⟨[], [], []⟩
        ["soapy_connector", "soapy_rtl_sdr"]).1 = true ↔
      ∀ b ∈ (requirementResultsSpec stratAllTrue 0 ⟨[], [], []⟩
        ["soapy_connector", "soapy_rtl_sdr"]).1, b = true) :=
  is_available_and_composition stratAllTrue 0 ⟨[], [], []⟩ "rtl_sdr_soapy"
    ["soapy_connector", "soapy_rtl_sdr"] rfl

/-- C5 (counterexample): evaluating `is_available` for `"rtl_sdr_soapy"`
(requirements `["soapy_connector", "soapy_rtl_sdr"]` in catalog order) with
the first requirement detecting `false` leaves NO trace of the second
requirement in the final state: `has_requirement` always writes a cache
entry and (with a strategy present) records an invocation for the
requirement it is called on, yet the final state carries neither for
`"soapy_rtl_sdr"` — so `has_requirement` was not invoked for it. -/
theorem short_circuit_counterexample :
    FeatureDetector.is_available stratFirstFails 0 ⟨[], [], []⟩ "rtl_sdr_soapy" =
      Except.ok (false,
        ⟨[("soapy_connector", ⟨false, 7200⟩)], [("soapy_connector", 1)], []⟩) ∧
    alookup ([("soapy_connector", (⟨false, 7200⟩ : CacheEntry))]) "soapy_rtl_sdr" = none ∧
    alookup ([("soapy_connector", (1 : Nat))]) "soapy_rtl_sdr" = none := by
  refine ⟨rfl, rfl, rfl⟩

/-- C5 (amended): within one evaluation, requirements are processed in the
catalog's declared order, but evaluation short-circuits: when the head
requirement evaluates to `false`, the loop invokes `has_requirement` for
none of the remaining requirements and returns `false` with the state left
exactly as it was after the head; when the head evaluates to `true`, the
loop continues on the tail from the updated state. -/
theorem has_requirements_order_short_circuit (strat : Strategies) (now : Nat)
    (st : DetectorState) (r : String) (rs : List String) :
    ((FeatureDetector.has_requirement strat now st r).1 = false →
      FeatureDetector.has_requirements strat now st (r :: rs) =
        (false, (FeatureDetector.has_requirement strat now st r).2)) ∧
    ((FeatureDetector.has_requirement strat now st r).1 = true →
      FeatureDetector.has_requirements strat now st (r :: rs) =
        FeatureDetector.has_requirements strat now
          (FeatureDetector.has_requirement strat now st r).2 rs) := by
  constructor
  · intro h
    unfold FeatureDetector.has_requirements
    rw [has_requirements_loop_cons, if_pos rfl, h, has_requirements_loop_false]
  · intro h
    unfold FeatureDetector.has_requirements
    rw [has_requirements_loop_cons, if_pos rfl, h]

theorem has_requirements_order_short_circuit_witness :
    (FeatureDetector.has_requirement stratFirstFails 0 ⟨[], [], []⟩ "soapy_connector").1 = false ∧
    FeatureDetector.has_requirements stratFirstFails 0 ⟨[], [], []⟩
        ["soapy_connector", "soapy_rtl_sdr"] =
      (false, (FeatureDetector.has_requirement stratFirstFails 0 ⟨[], [], []⟩ "soapy_connector").2) :=
  ⟨rfl, (has_requirements_order_short_circuit stratFirstFails 0 ⟨[], [], []⟩
    "soapy_connector" ["soapy_rtl_sdr"]).1 rfl⟩

/-- C4: `set` stores a value whose expiry is exactly `now + 2` hours,
overwriting any prior entry (first conjunct, for every cache, instant, name
and value).  Consequently, for a requirement with a registered strategy and
a cache miss at time `t0`: the first `has_requirement` call invokes the
strategy (at its current invocation count); a second call at any `t1`
within the 2-hour window returns the same first-observed value with the
state unchanged (no re-invocation); and a call at any `t2` after the 2
hours have elapsed re-invokes the strategy (at the bumped invocation
count), so an alternating strategy may then yield a different value. -/
theorem has_requirement_cache_ttl (strat : Strategies) (m : Nat → Bool)
    (req : String) (st : DetectorState) (t0 t1 t2 : Nat)
    (hstrat : strat req = some m)
    (hmiss : FeatureCache.has st.cache t0 req = false)
    (h1 : t1 ≤ t0 + FeatureCache.cachetime)
    (h2 : t0 + FeatureCache.cachetime < t2) :
    (∀ c n f v, alookup (FeatureCache.set c n f v) f =
      some ⟨v, n + FeatureCache.cachetime⟩) ∧
    (FeatureDetector.has_requirement strat t0 st req).1 =
      m (getInvocations st req) ∧
    FeatureDetector.has_requirement strat t1
        (FeatureDetector.has_requirement strat t0 st req).2 req =
      ((FeatureDetector.has_requirement strat t0 st req).1,
       (FeatureDetector.has_requirement strat t0 st req).2) ∧
    (FeatureDetector.has_requirement strat t2
        (FeatureDetector.has_requirement strat t0 st req).2 req).1 =
      m (getInvocations st req + 1) := by
  have hfirst : FeatureDetector.has_requirement strat t0 st req =
      (m (getInvocations st req),
       ⟨FeatureCache.set st.cache t0 req (m (getInvocations st req)),
        (req, getInvocations st req + 1) :: st.invocations, st.errorLog⟩) := by
    simp [FeatureDetector.has_requirement, hmiss, hstrat]
  have hhas1 : FeatureCache.has
      (FeatureCache.set st.cache t0 req (m (getInvocations st req))) t1 req = true := by
    unfold FeatureCache.has
    rw [alookup_set]
    simp
    omega
  have hhas2 : FeatureCache.has
      (FeatureCache.set st.cache t0 req (m (getInvocations st req))) t2 req = false := by
    unfold FeatureCache.has
    rw [alookup_set]
    simp
    omega
  refine ⟨alookup_set, ?_, ?_, ?_⟩
  · rw [hfirst]
  · rw [hfirst]
    rw [has_requirement_hit strat t1 _ req hhas1]
    simp [FeatureCache.get, alookup_set]
  · rw [hfirst]
    rw [has_requirement_miss_some strat t2 _ req m hstrat hhas2]
    simp [getInvocations, alookup]

theorem has_requirement_cache_ttl_witness :
    (FeatureDetector.has_requirement stratAlternating 0 ⟨[], [], []⟩ "probe").1 = true ∧
    FeatureDetector.has_requirement stratAlternating 7200
        (FeatureDetector.has_requirement stratAlternating 0 ⟨[], [], []⟩ "probe").2 "probe" =
      ((FeatureDetector.has_requirement stratAlternating 0 ⟨[], [], []⟩ "probe").1,
       (FeatureDetector.has_requirement stratAlternating 0 ⟨[], [], []⟩ "probe").2) ∧
    (FeatureDetector.has_requirement stratAlternating 7201
        (FeatureDetector.has_requirement stratAlternating 0 ⟨[], [], []⟩ "probe").2 "probe").1 =
      false := by
  have h := has_requirement_cache_ttl stratAlternating (fun n => decide (n % 2 = 0)) "probe"
    ⟨[], [], []⟩ 0 7200 7201 rfl rfl (by decide) (by decide)
  exact ⟨h.2.1, h.2.2.1, h.2.2.2⟩

/-- C2 (counterexample): an in-catalog feature name can raise an error
other than `UnknownFeatureException`.  Feature `"rtl_sdr"` is in the
catalog; its sole requirement's probe (`has_rtl_connector` →
`_check_owrx_connector` → `_check_connector "rtl_connector"`) raises
`subprocess.TimeoutExpired` instead of producing a boolean when the spawned
connector prints a well-formed version line but does not exit within the
1-second `process.wait(1)` window — and nothing on the path up through
`has_requirement`, `has_requirements` and `is_available` catches it, so
that failure mode does not degrade to a boolean result. -/
theorem is_available_other_error_counterexample :
    alookup FeatureDetector.features "rtl_sdr" = some ["rtl_connector"] ∧
    FeatureDetector.check_connector "rtl_connector" (fun _ => true)
      (some ⟨"rtl_connector version 0.8", false⟩) =
      Except.error SubprocessError.timeoutExpired :=
  ⟨rfl, rfl⟩
